import Mathlib

/-!
Shallow embedding of the Thoughtful AI customer-support agent
(`src/agent.py`, `src/data.py`).

Modelling conventions:
* Python strings are Lean `String`; `str.lower()`, `str.strip()` and
  `str.split()` are modelled by `pylower`, `pystrip`, `pysplit` over the
  character list (the repository's data and keyword lists are ASCII, where
  these agree with Python).
* `needle in hay` on strings is the contiguous-substring test `pyIn`.
* Python `float` similarity scores are modelled as `ℚ`; only order
  comparisons on scores matter to the code.
* The sentence-transformer encoder is an external collaborator: the vector
  of similarity scores `np.dot(self.predefined_embeddings, q).flatten()`
  enters `respond` as the parameter `sims` (one score per entry of
  `QUESTIONS`, in storage order).
* The OpenAI call is an external collaborator: its outcome enters `respond`
  as `llm : Option String`, where `none` stands for every failure mode that
  `_get_openai_response` folds into `None` (any raised exception, or a
  `None` message content), and `some s` for a returned string `s` (the
  Python truthiness test `if openai_response:` also rejects `s = ""`).
* `FACET_MAP` is a Python dict built by insertion with (provably) pairwise
  distinct keys, so it is modelled as the association list in insertion
  order; likewise `ANSWER_MAP`/`ANSWERS`.
* The `_response_counters` dict with its fixed seven keys is the structure
  `Counters`; `np.argmax` is `argmaxIdx` (first index attaining the
  maximum).
-/

/-- Python `s.lower()` (ASCII range, as all data of this repository). -/
def pylower (s : String) : String := ⟨s.data.map Char.toLower⟩

/-- Python `s.strip()`: drop leading and trailing whitespace. -/
def pystrip (s : String) : String :=
  ⟨((s.data.dropWhile Char.isWhitespace).reverse.dropWhile Char.isWhitespace).reverse⟩

/-- Python `s.split()` with no argument: split on whitespace runs, no empty
chunks. -/
def pysplit (s : String) : List String :=
  ((s.data.splitOnP Char.isWhitespace).filter (fun w => !w.isEmpty)).map
    (fun w => (⟨w⟩ : String))

/-- Python `needle in hay` for strings: contiguous substring. -/
def pyIn (needle hay : String) : Bool := decide (needle.data <:+: hay.data)

/-- Python `len(set(a) & set(b))` where `a`, `b` are word lists: the number
of distinct words of `a` that also occur in `b`. -/
def interCount (a b : List String) : Nat :=
  (a.dedup.filter (fun w => b.contains w)).length

/-- The dict returned by `ThoughtfulAIAgent.respond`:
`{"response": …, "source": …, "confidence": …}`. -/
structure MatchResult where
  response : String
  source : String
  confidence : Option ℚ
deriving DecidableEq, Repr

/-- One entry of `PREDEFINED_QA` in `src/data.py`. -/
structure TopicEntry where
  question : String
  answer : String
  variations : List String
  facets : List String
deriving DecidableEq, Repr

/-- `PREDEFINED_QA` of `src/data.py`, verbatim. -/
def PREDEFINED_QA : List TopicEntry := [
  { question := "What does the eligibility verification agent (EVA) do?",
    answer := "EVA automates the process of verifying a patient's eligibility and benefits information in real-time, eliminating manual data entry errors and reducing claim rejections.",
    variations := [
      "What does EVA do?",
      "What is EVA?",
      "Tell me about EVA",
      "Explain EVA",
      "What is the eligibility verification agent?",
      "How does EVA work?"],
    facets := [
      "verify eligibility",
      "check patient eligibility",
      "eligibility verification",
      "benefits verification",
      "check insurance eligibility",
      "verify benefits",
      "eligibility checks",
      "insurance verification",
      "patient eligibility",
      "real-time eligibility"] },
  { question := "What does the claims processing agent (CAM) do?",
    answer := "CAM streamlines the submission and management of claims, improving accuracy, reducing manual intervention, and accelerating reimbursements.",
    variations := [
      "What is CAM?",
      "Tell me about CAM",
      "Explain CAM",
      "What is the claims processing agent?",
      "How does CAM work?",
      "What does CAM do?"],
    facets := [
      "process claims",
      "claims submission",
      "submit claims",
      "manage claims",
      "claims management",
      "handle claims",
      "claims accuracy",
      "accelerate reimbursements",
      "claims processing",
      "claim rejections",
      "denied claims"] },
  { question := "How does the payment posting agent (PHIL) work?",
    answer := "PHIL automates the posting of payments to patient accounts, ensuring fast, accurate reconciliation of payments and reducing administrative burden.",
    variations := [
      "What is PHIL?",
      "Tell me about PHIL",
      "Explain PHIL",
      "What is the payment posting agent?",
      "What does PHIL do?",
      "How does PHIL work?"],
    facets := [
      "post payments",
      "payment posting",
      "patient payments",
      "payment reconciliation",
      "reconcile payments",
      "handle payments",
      "payment processing",
      "account reconciliation",
      "payment accuracy",
      "administrative burden"] },
  { question := "Tell me about Thoughtful AI's Agents.",
    answer := "Thoughtful AI provides a suite of AI-powered automation agents designed to streamline healthcare processes. These include Eligibility Verification (EVA), Claims Processing (CAM), and Payment Posting (PHIL), among others.",
    variations := [
      "What are Thoughtful AI agents?",
      "What agents do you have?",
      "Tell me about Thoughtful AI",
      "What is Thoughtful AI?",
      "What products do you offer?",
      "What services does Thoughtful AI provide?",
      "List your agents",
      "What AI agents are available?"],
    facets := [
      "healthcare automation",
      "ai agents",
      "automation solutions",
      "healthcare ai",
      "streamline processes",
      "reduce manual work",
      "your solutions",
      "your products",
      "what do you offer"] },
  { question := "What are the benefits of using Thoughtful AI's agents?",
    answer := "Using Thoughtful AI's Agents can significantly reduce administrative costs, improve operational efficiency, and reduce errors in critical processes like claims management and payment posting.",
    variations := [
      "What are the benefits?",
      "Why should I use Thoughtful AI?",
      "What are the advantages?",
      "How can Thoughtful AI help me?",
      "What value do your agents provide?",
      "Tell me about the benefits",
      "Why choose Thoughtful AI?"],
    facets := [
      "reduce costs",
      "save money",
      "operational efficiency",
      "reduce errors",
      "administrative costs",
      "improve accuracy",
      "faster processing",
      "save time",
      "return on investment",
      "roi"] }]

/-- `QUESTIONS` of `src/data.py`: per topic, the main question then its
variations, flattened in load order. -/
def QUESTIONS : List String :=
  PREDEFINED_QA.flatMap (fun qa => qa.question :: qa.variations)

/-- `ANSWER_MAP` (= `ANSWERS`) of `src/data.py` as an association list in
insertion order (its keys are pairwise distinct, see
`ANSWER_MAP_keys_nodup`). -/
def ANSWER_MAP : List (String × String) :=
  PREDEFINED_QA.flatMap (fun qa =>
    (qa.question, qa.answer) :: qa.variations.map (fun v => (v, qa.answer)))

/-- `FACET_MAP` of `src/data.py` as an association list in insertion order:
`FACET_MAP[facet.lower()] = answer` for every facet of every topic (its
keys are pairwise distinct, see `FACET_MAP_keys_nodup`). -/
def FACET_MAP : List (String × String) :=
  PREDEFINED_QA.flatMap (fun qa =>
    qa.facets.map (fun f => (pylower f, qa.answer)))

/-- `GREETING_RESPONSES` of `src/data.py`. -/
def GREETING_RESPONSES : List String := [
  "Hello! 👋 Welcome to Thoughtful AI Support. I'm here to help you with questions about our healthcare automation agents like EVA, CAM, and PHIL. What would you like to know?",
  "Hi there! Welcome to Thoughtful AI. I can tell you all about our AI agents that streamline healthcare processes. How can I assist you today?",
  "Hey! 👋 Thanks for reaching out to Thoughtful AI Support. I'm your friendly agent for questions about EVA, CAM, PHIL, and more. What can I help you with?",
  "Hello and welcome! I'm your Thoughtful AI support assistant. I specialize in our automation agents for healthcare. What would you like to learn about?",
  "Hi! Great to meet you. I'm here to answer questions about Thoughtful AI's agents - EVA for eligibility verification, CAM for claims processing, and PHIL for payment posting. What interests you?",
  "Welcome to Thoughtful AI! 🎉 I'm your support agent. Ask me anything about our healthcare automation solutions!",
  "Hello! I'm your virtual assistant for Thoughtful AI. I can explain how our agents help streamline healthcare operations. What would you like to explore?",
  "Hey there! Ready to learn about Thoughtful AI's automation agents? I'm here to help with any questions about EVA, CAM, PHIL, or our other solutions!"]

/-- `HELP_RESPONSES` of `src/data.py`. -/
def HELP_RESPONSES : List String := [
  "I can help you with questions about Thoughtful AI's healthcare automation agents!\n\nI know about:\n• EVA - Eligibility Verification Agent\n• CAM - Claims Processing Agent\n• PHIL - Payment Posting Agent\n• General info about Thoughtful AI and our benefits\n\nWhat would you like to know about?",
  "Here's what I can help you with:\n\nOur Agents:\n• EVA - Automates patient eligibility verification\n• CAM - Streamlines claims processing\n• PHIL - Automates payment posting\n\nPlus general questions about Thoughtful AI and how our solutions benefit healthcare organizations.\n\nWhat interests you?",
  "I'm your Thoughtful AI support specialist! I can answer questions about:\n\n• What each agent (EVA, CAM, PHIL) does\n• How our automation works\n• The benefits of using Thoughtful AI\n• General information about our company\n\nWhat would you like to explore?",
  "Great question! I'm designed to help with:\n\n• Understanding EVA, CAM, and PHIL\n• Learning about Thoughtful AI's solutions\n• Discovering the benefits of healthcare automation\n• General support questions\n\nTry asking 'What is EVA?' or 'Tell me about CAM!'",
  "I can assist you with information about our AI-powered healthcare agents:\n\n• EVA - Real-time eligibility verification\n• CAM - Accurate claims processing\n• PHIL - Fast payment reconciliation\n\nPlus general questions about our company and solutions. What can I tell you about?",
  "Here's my expertise area:\n\nHealthcare Automation Agents:\n• EVA (Eligibility Verification)\n• CAM (Claims Processing)\n• PHIL (Payment Posting)\n\nPlus benefits, company info, and how we help healthcare organizations.\n\nWhat would you like to dive into?"]

/-- `FAREWELL_RESPONSES` of `src/data.py`. -/
def FAREWELL_RESPONSES : List String := [
  "You're welcome! Thanks for chatting with Thoughtful AI Support. Have a great day! 👋",
  "Glad I could help! Feel free to come back if you have more questions about our agents. Take care!",
  "Thank you for reaching out! If you need more info about EVA, CAM, or PHIL later, I'm here. Goodbye! 👋",
  "You're welcome! Hope you learned something useful about Thoughtful AI. Have a wonderful day!",
  "Thanks for chatting! If you have more questions about our healthcare automation solutions, don't hesitate to ask. Bye!",
  "Appreciate you stopping by! Reach out anytime you need help with Thoughtful AI. Take care! 👋",
  "You're welcome! Wishing you success with your healthcare automation journey. Goodbye!",
  "Glad to assist! Come back anytime for questions about EVA, CAM, PHIL, or Thoughtful AI. Have a great one!"]

/-- `GRATITUDE_RESPONSES` of `src/data.py`. -/
def GRATITUDE_RESPONSES : List String := [
  "You're very welcome! 😊 Happy to help with any questions about our agents!",
  "My pleasure! Let me know if you need anything else about Thoughtful AI.",
  "Glad I could help! Feel free to ask if you want to dive deeper into any of our agents.",
  "You're welcome! Thanks for your interest in Thoughtful AI's solutions.",
  "Happy to assist! Is there anything else about EVA, CAM, or PHIL you'd like to know?",
  "Anytime! 😊 I'm here whenever you need info about our healthcare automation agents.",
  "You're most welcome! Excited to help you explore Thoughtful AI's capabilities.",
  "Glad to be of service! Reach out if you have more questions about our agents."]

/-- `UNKNOWN_RESPONSES` of `src/data.py`. -/
def UNKNOWN_RESPONSES : List String := [
  "I'm not sure about that. I specialize in Thoughtful AI's healthcare automation agents like EVA, CAM, and PHIL. Is there something about those I can help you with?",
  "I don't have information on that topic. I'm specifically designed to answer questions about Thoughtful AI's agents (EVA, CAM, PHIL) and their benefits. How can I help you with those?",
  "That's outside my area of expertise. I focus on Thoughtful AI's healthcare automation solutions. Would you like to know about EVA, CAM, or PHIL instead?",
  "Hmm, I don't know about that. But I can tell you all about our AI agents for healthcare! Ask me about EVA, CAM, or PHIL?",
  "I wish I could help with that, but I'm specialized in Thoughtful AI's automation agents. Can I answer questions about EVA, CAM, or PHIL for you?",
  "That's not something I'm trained on. I'm your go-to for Thoughtful AI agent questions though! What would you like to know about EVA, CAM, or PHIL?",
  "I don't have the answer to that, but I'd love to help you learn about our healthcare automation agents! Which one interests you?",
  "Sorry, that's beyond my knowledge base. I stick to what I know best - Thoughtful AI's agents! Ask me about EVA, CAM, or PHIL?",
  "I'm focused on healthcare automation at Thoughtful AI. For that other topic, you might need a different resource. But hey, want to learn about our agents?",
  "That's a different topic than what I cover. I'm here for EVA, CAM, PHIL, and Thoughtful AI questions! What can I tell you?"]

/-- `ACKNOWLEDGMENT_RESPONSES` of `src/data.py`. -/
def ACKNOWLEDGMENT_RESPONSES : List String := [
  "Great! Let me know if you have any other questions. I'm here to help!",
  "Got it! Feel free to ask if you want to learn more about any of our agents.",
  "Perfect! Is there anything else about Thoughtful AI you'd like to explore?",
  "Sounds good! I'm here if you need more info about EVA, CAM, or PHIL.",
  "Alright! Don't hesitate to reach out if you have more questions.",
  "Understood! Let me know if there's anything else I can clarify about our agents.",
  "Excellent! I'm ready to help with any follow-up questions you might have.",
  "Cool! Feel free to dig deeper into any topic about Thoughtful AI."]

/-- `CONFUSION_RESPONSES` of `src/data.py`. -/
def CONFUSION_RESPONSES : List String := [
  "I'm not quite sure I understand. Could you rephrase that? I can help with questions about EVA, CAM, PHIL, or Thoughtful AI in general.",
  "Hmm, I didn't catch that. Try asking me about our agents like 'What is EVA?' or 'Tell me about CAM!'",
  "I want to help, but I'm not sure what you're asking. I know lots about Thoughtful AI's healthcare agents though!",
  "Could you try asking that a different way? I can answer questions about EVA, CAM, PHIL, or our company benefits.",
  "I'm a bit confused by that. But I can definitely help with: What is EVA? What does CAM do? How does PHIL work?",
  "Not sure I got that. I'm designed to help with Thoughtful AI agent questions. What would you like to know?"]

/-- `SIMILARITY_THRESHOLD = 0.55` of `src/agent.py` (written as the reduced
fraction 55/100 through `Rat.divInt`, which the kernel can evaluate). -/
def SIMILARITY_THRESHOLD : ℚ := Rat.divInt 55 100

/-- `np.argmax`: the first index at which the list attains its maximum
(0 on the empty list, where `np.argmax` would raise). -/
def argmaxIdx (l : List ℚ) : Nat :=
  l.findIdx (fun x => l.all (fun y => decide (y ≤ x)))

/-- `ThoughtfulAIAgent._find_best_match`: take the argmax of the similarity
scores; return the stored question there plus the score when the score
reaches `SIMILARITY_THRESHOLD`, otherwise no question plus the
(sub-threshold) score. -/
def find_best_match (sims : List ℚ) : Option String × ℚ :=
  let best_idx := argmaxIdx sims
  let best_score := sims.getD best_idx 0
  if SIMILARITY_THRESHOLD ≤ best_score then
    (some (QUESTIONS.getD best_idx ""), best_score)
  else
    (none, best_score)

/-- `overlap = len(query_words & facet_words)` of `_find_facet_match` for
one `FACET_MAP` entry `p`. -/
def facetOverlap (query_words : List String) (p : String × String) : Nat :=
  interCount query_words (pysplit p.1)

/-- The word-overlap loop of `_find_facet_match` (its Priority 2), with the
running `best_match`/`best_score` accumulators made explicit. -/
def overlapScan (query_words : List String) :
    List (String × String) → Option String → Nat → Option String × Nat
  | [], best_match, best_score => (best_match, best_score)
  | p :: rest, best_match, best_score =>
    let overlap := facetOverlap query_words p
    if 2 ≤ overlap ∧ best_score < overlap then
      overlapScan query_words rest (some p.2) overlap
    else
      overlapScan query_words rest best_match best_score

/-- `ThoughtfulAIAgent._find_facet_match`: first the substring pass over
`FACET_MAP` in load order (first hit wins), then the word-overlap pass
(threshold 2, replace only on strictly greater overlap). -/
def find_facet_match (query : String) : Option String :=
  let query_lower := pylower query
  match FACET_MAP.find? (fun p => pyIn p.1 query_lower) with
  | some p => some p.2
  | none =>
    let query_words := pysplit query_lower
    (overlapScan query_words FACET_MAP none 0).1

/-- `query.lower().strip()` as computed at the top of `_detect_intent`. -/
def queryNorm (query : String) : String := pystrip (pylower query)

/-- `words = query_lower.split()` of `_detect_intent` (used as a set). -/
def queryWords (query : String) : List String := pysplit (queryNorm query)

/-- `help_keywords` of `_detect_intent`. -/
def help_keywords : List String := [
  "help", "what can you do", "what do you do", "capabilities",
  "what are you", "who are you", "features", "functions", "assist"]

/-- `greeting_words` of `_detect_intent`. -/
def greeting_words : List String :=
  ["hi", "hello", "hey", "greetings", "howdy", "hiya", "yo", "sup"]

/-- The time-based greeting substrings of `_detect_intent`. -/
def time_greeting_words : List String := ["morning", "afternoon", "evening"]

/-- `farewell_words` of `_detect_intent`. -/
def farewell_words : List String := ["bye", "goodbye", "cya", "later"]

/-- `gratitude_words` of `_detect_intent`. -/
def gratitude_words : List String :=
  ["thanks", "thank", "thx", "ty", "appreciate", "grateful", "cheers"]

/-- `ack_words` of `_detect_intent`. -/
def ack_words : List String :=
  ["ok", "okay", "cool", "great", "good", "nice", "perfect", "sure", "alright"]

/-- `confusion_words` of `_detect_intent` (note: the code then tests token
membership only against `confusion_words[:2]`). -/
def confusion_words : List String := ["what", "huh", "confused"]

/-- `ThoughtfulAIAgent._detect_intent`: the decision list over the
lowercased, stripped query and its whitespace-split token set, in the fixed
priority order help, greeting, farewell, gratitude, acknowledgment,
confusion, unknown. -/
def detect_intent (query : String) : String :=
  let query_lower := queryNorm query
  let words := queryWords query
  if help_keywords.any (fun k => pyIn k query_lower) then "help"
  else if greeting_words.any (fun w => words.contains w) then "greeting"
  else if time_greeting_words.any (fun w => pyIn w query_lower) then "greeting"
  else if farewell_words.any (fun w => words.contains w) then "farewell"
  else if pyIn "see you" query_lower || words.contains "exit" || words.contains "quit" then "farewell"
  else if gratitude_words.any (fun w => words.contains w) then "gratitude"
  else if ack_words.any (fun w => words.contains w) then "acknowledgment"
  else if (confusion_words.take 2).any (fun w => words.contains w) then "confusion"
  else if pyIn "don't understand" query_lower || pyIn "dont understand" query_lower then "confusion"
  else "unknown"

/-- `self._response_counters`: the rotation-counter dict with its fixed
seven keys, set up in `ThoughtfulAIAgent.__init__`. -/
structure Counters where
  greeting : Nat
  help : Nat
  farewell : Nat
  gratitude : Nat
  unknown : Nat
  acknowledgment : Nat
  confusion : Nat
deriving DecidableEq, Repr

/-- The counters of a fresh agent instance: every key at 0. -/
def freshCounters : Counters :=
  { greeting := 0, help := 0, farewell := 0, gratitude := 0, unknown := 0,
    acknowledgment := 0, confusion := 0 }

/-- The key set of `self._response_counters`. -/
def counterKeys : List String :=
  ["greeting", "help", "farewell", "gratitude", "unknown", "acknowledgment",
   "confusion"]

/-- `counter_key = intent if intent in self._response_counters else "unknown"`. -/
def counterKey (intent : String) : String :=
  if counterKeys.contains intent then intent else "unknown"

/-- `self._response_counters[key]` (only ever called with a key of
`counterKeys`, so the final catch-all branch is the `"unknown"` entry). -/
def getCount (c : Counters) (key : String) : Nat :=
  if key = "greeting" then c.greeting
  else if key = "help" then c.help
  else if key = "farewell" then c.farewell
  else if key = "gratitude" then c.gratitude
  else if key = "acknowledgment" then c.acknowledgment
  else if key = "confusion" then c.confusion
  else c.unknown

/-- `self._response_counters[key] += 1` (same key discipline as `getCount`). -/
def incCount (c : Counters) (key : String) : Counters :=
  if key = "greeting" then { c with greeting := c.greeting + 1 }
  else if key = "help" then { c with help := c.help + 1 }
  else if key = "farewell" then { c with farewell := c.farewell + 1 }
  else if key = "gratitude" then { c with gratitude := c.gratitude + 1 }
  else if key = "acknowledgment" then { c with acknowledgment := c.acknowledgment + 1 }
  else if key = "confusion" then { c with confusion := c.confusion + 1 }
  else { c with unknown := c.unknown + 1 }

/-- `response_map.get(intent, response_map["unknown"])` of
`_get_generic_response`: the response pool and source label per intent, the
`"unknown"` pair for an unregistered intent. -/
def response_map (intent : String) : List String × String :=
  if intent = "greeting" then (GREETING_RESPONSES, "generic-greeting")
  else if intent = "help" then (HELP_RESPONSES, "generic-help")
  else if intent = "farewell" then (FAREWELL_RESPONSES, "generic-farewell")
  else if intent = "gratitude" then (GRATITUDE_RESPONSES, "generic-gratitude")
  else if intent = "acknowledgment" then (ACKNOWLEDGMENT_RESPONSES, "generic-ack")
  else if intent = "confusion" then (CONFUSION_RESPONSES, "generic-confusion")
  else (UNKNOWN_RESPONSES, "generic-unknown")

/-- `ThoughtfulAIAgent._get_generic_response`: look up the pool and source
label, read the rotation counter (the requested intent's when registered,
else `"unknown"`'s), return `responses[index % len]` with the label, and
increment that counter. Returns `((response, source), updated counters)`. -/
def get_generic_response (intent : String) (c : Counters) :
    (String × String) × Counters :=
  let rs := response_map intent
  let key := counterKey intent
  let index := getCount c key % rs.1.length
  ((rs.1.getD index "", rs.2), incCount c key)

/-- The generic-fallback tail of `respond` (Priority 5). -/
def genericResult (intent : String) (c : Counters) : MatchResult × Counters :=
  let rc := get_generic_response intent c
  ({ response := rc.1.1, source := rc.1.2, confidence := none }, rc.2)

/-- `ThoughtfulAIAgent.respond`: strip the query; empty input is the error
record; else facet match (terminal, confidence 0.85), else embedding match
(terminal, confidence = score), else intent detection, the optional OpenAI
call (only for intent `"unknown"` with OpenAI enabled; a falsy outcome
falls through), else the generic response. The counters thread through;
`sims` and `llm` are the two external collaborators' outcomes. -/
def respond (q : String) (sims : List ℚ) (openai_enabled : Bool)
    (llm : Option String) (c : Counters) : MatchResult × Counters :=
  let query := pystrip q
  if query = "" then
    ({ response := "Please enter a valid question.", source := "error",
       confidence := none }, c)
  else
    match find_facet_match query with
    | some facet_answer =>
        ({ response := facet_answer, source := "predefined",
           confidence := some (85/100) }, c)
    | none =>
      match find_best_match sims with
      | (some matched_question, score) =>
          ({ response := (ANSWER_MAP.lookup matched_question).getD "",
             source := "predefined", confidence := some score }, c)
      | (none, _) =>
        let intent := detect_intent query
        if intent = "unknown" ∧ openai_enabled = true then
          match llm with
          | some s =>
              if s = "" then genericResult intent c
              else ({ response := s, source := "llm", confidence := none }, c)
          | none => genericResult intent c
        else genericResult intent c

/-- The counters after `n` consecutive `_get_generic_response` calls for
the same intent, starting from `c`. -/
def genCalls (intent : String) : Nat → Counters → Counters
  | 0, c => c
  | n + 1, c => genCalls intent n (get_generic_response intent c).2

/-- Sanity of the association-list model of the Python dict `FACET_MAP`:
its keys are pairwise distinct, so insertion order with first-hit lookup
coincides with dict iteration order and indexing. -/
theorem FACET_MAP_keys_nodup : (FACET_MAP.map Prod.fst).Nodup := by decide

/-- Sanity of the association-list model of the Python dict `ANSWER_MAP`. -/
theorem ANSWER_MAP_keys_nodup : (ANSWER_MAP.map Prod.fst).Nodup := by decide

/-- No facet phrase is empty. -/
theorem FACET_MAP_keys_ne_empty : ∀ p ∈ FACET_MAP, ¬ p.1 = "" := by decide

theorem find_eq_some_of_first {α : Type} (p : α → Bool) (d : α) (l : List α) :
    ∀ k, k < l.length → p (l.getD k d) = true →
      (∀ j, j < k → p (l.getD j d) = false) → l.find? p = some (l.getD k d) := by
  induction l with
  | nil => intro k hk _ _; simp at hk
  | cons a t ih =>
    intro k hk hp hb
    cases k with
    | zero =>
      simp only [List.getD_cons_zero] at hp ⊢
      exact List.find?_cons_of_pos t hp
    | succ k =>
      have ha : p a = false := by simpa using hb 0 (Nat.succ_pos k)
      simp only [List.getD_cons_succ] at hp ⊢
      rw [List.find?_cons_of_neg t (by simp [ha])]
      exact ih k (by simpa using hk) hp
        (fun j hj => by simpa using hb (j + 1) (by omega))

theorem overlapScan_stable (qws : List String) :
    ∀ (l : List (String × String)) (bm : Option String) (bs : Nat),
      (∀ x ∈ l, ¬ (2 ≤ facetOverlap qws x ∧ bs < facetOverlap qws x)) →
      overlapScan qws l bm bs = (bm, bs) := by
  intro l
  induction l with
  | nil => intro bm bs _; rfl
  | cons p t ih =>
    intro bm bs h
    rw [overlapScan, if_neg (h p (List.mem_cons_self p t))]
    exact ih bm bs (fun x hx => h x (List.mem_cons_of_mem p hx))

theorem overlapScan_first_max (qws : List String) (d : String × String) :
    ∀ (l : List (String × String)) (k : Nat) (bm : Option String) (bs : Nat),
      k < l.length →
      2 ≤ facetOverlap qws (l.getD k d) →
      bs < facetOverlap qws (l.getD k d) →
      (∀ j, j < k → facetOverlap qws (l.getD j d) < facetOverlap qws (l.getD k d)) →
      (∀ x ∈ l, facetOverlap qws x ≤ facetOverlap qws (l.getD k d)) →
      overlapScan qws l bm bs =
        (some (l.getD k d).2, facetOverlap qws (l.getD k d)) := by
  intro l
  induction l with
  | nil => intro k _ _ hk; simp at hk
  | cons p t ih =>
    intro k bm bs hk h2 hbs hfirst hmax
    cases k with
    | zero =>
      simp only [List.getD_cons_zero] at h2 hbs hmax ⊢
      rw [overlapScan, if_pos ⟨h2, hbs⟩]
      apply overlapScan_stable
      intro x hx
      have hle := hmax x (List.mem_cons_of_mem p hx)
      intro hcon
      omega
    | succ k =>
      have hpk : facetOverlap qws p < facetOverlap qws (t.getD k d) := by
        simpa using hfirst 0 (Nat.succ_pos k)
      simp only [List.getD_cons_succ] at h2 hbs hfirst hmax ⊢
      rw [overlapScan]
      by_cases htr : 2 ≤ facetOverlap qws p ∧ bs < facetOverlap qws p
      · rw [if_pos htr]
        exact ih k (some p.2) (facetOverlap qws p) (by simpa using hk) h2 hpk
          (fun j hj => by simpa using hfirst (j + 1) (by omega))
          (fun x hx => hmax x (List.mem_cons_of_mem p hx))
      · rw [if_neg htr]
        exact ih k bm bs (by simpa using hk) h2 hbs
          (fun j hj => by simpa using hfirst (j + 1) (by omega))
          (fun x hx => hmax x (List.mem_cons_of_mem p hx))

theorem exists_max_mem (l : List ℚ) (h : ¬ l = []) :
    ∃ x ∈ l, ∀ y ∈ l, y ≤ x := by
  induction l with
  | nil => exact absurd rfl h
  | cons a t ih =>
    cases t with
    | nil => exact ⟨a, List.mem_cons_self a [], by simp⟩
    | cons b u =>
      obtain ⟨x, hx, hmax⟩ := ih (by simp)
      rcases le_total a x with hax | hxa
      · exact ⟨x, List.mem_cons_of_mem a hx, by
          intro y hy
          rcases List.mem_cons.mp hy with rfl | hy
          · exact hax
          · exact hmax y hy⟩
      · exact ⟨a, List.mem_cons_self a (b :: u), by
          intro y hy
          rcases List.mem_cons.mp hy with rfl | hy
          · exact le_refl y
          · exact le_trans (hmax y hy) hxa⟩

theorem exists_max_all (l : List ℚ) (h : ¬ l = []) :
    ∃ x ∈ l, l.all (fun y => decide (y ≤ x)) = true := by
  obtain ⟨x, hx, hmax⟩ := exists_max_mem l h
  exact ⟨x, hx, List.all_eq_true.mpr (fun y hy => decide_eq_true (hmax y hy))⟩

theorem argmaxIdx_lt_length (l : List ℚ) (h : ¬ l = []) :
    argmaxIdx l < l.length :=
  List.findIdx_lt_length_of_exists (exists_max_all l h)

theorem argmaxIdx_is_max (l : List ℚ) (h : ¬ l = []) :
    ∀ j, j < l.length → l.getD j 0 ≤ l.getD (argmaxIdx l) 0 := by
  intro j hj
  have hlt : argmaxIdx l < l.length := argmaxIdx_lt_length l h
  have hp := @List.findIdx_getElem _ (fun x => l.all (fun y => decide (y ≤ x))) l hlt
  rw [List.getD_eq_getElem l 0 hj, List.getD_eq_getElem l 0 hlt]
  exact of_decide_eq_true (List.all_eq_true.mp hp _ (List.getElem_mem hj))

theorem argmaxIdx_first (l : List ℚ) (h : ¬ l = []) :
    ∀ j, j < argmaxIdx l → l.getD j 0 < l.getD (argmaxIdx l) 0 := by
  intro j hj
  have hlt : argmaxIdx l < l.length := argmaxIdx_lt_length l h
  have hjl : j < l.length := lt_trans hj hlt
  have hp := @List.not_of_lt_findIdx _ (fun x => l.all (fun y => decide (y ≤ x))) l j hj
  have hne : ¬ (l.all (fun y => decide (y ≤ l[j])) = true) := by
    simp only [hp]
    intro hc
    exact absurd hc (by simp)
  rw [List.all_eq_true] at hne
  push_neg at hne
  obtain ⟨y, hy, hyd⟩ := hne
  have hyle : ¬ y ≤ l[j] := fun hc => hyd (decide_eq_true hc)
  have h1 : l[j] < y := lt_of_not_le hyle
  have h2 : y ≤ l.getD (argmaxIdx l) 0 := by
    obtain ⟨i, hi, rfl⟩ := List.getElem_of_mem hy
    have hi2 := argmaxIdx_is_max l h i hi
    rw [List.getD_eq_getElem l 0 hi] at hi2
    exact hi2
  rw [List.getD_eq_getElem l 0 hjl]
  exact lt_of_lt_of_le h1 h2

theorem getCount_incCount_self (k : String) (hk : counterKeys.contains k = true)
    (c : Counters) : getCount (incCount c k) k = getCount c k + 1 := by
  have hmem : k ∈ counterKeys := by simpa using hk
  simp only [counterKeys, List.mem_cons, List.mem_singleton] at hmem
  rcases hmem with rfl | rfl | rfl | rfl | rfl | rfl | rfl | h
  · rfl
  · rfl
  · rfl
  · rfl
  · rfl
  · rfl
  · rfl
  · simp at h

theorem get_generic_response_counters (intent : String)
    (hk : counterKeys.contains intent = true) (c : Counters) :
    (get_generic_response intent c).2 = incCount c intent := by
  have hmem : intent ∈ counterKeys := by simpa using hk
  simp [get_generic_response, counterKey, hk, hmem]

theorem getCount_fresh (k : String) : getCount freshCounters k = 0 := by
  unfold getCount freshCounters
  repeat' split
  all_goals rfl

theorem genCalls_getCount (intent : String)
    (hk : counterKeys.contains intent = true) :
    ∀ (n : Nat) (c : Counters),
      getCount (genCalls intent n c) intent = getCount c intent + n := by
  intro n
  induction n with
  | zero => intro c; simp [genCalls]
  | succ n ih =>
    intro c
    rw [genCalls, ih, get_generic_response_counters intent hk,
      getCount_incCount_self intent hk]
    omega

theorem find_best_match_pair_some (sims : List ℚ) (m : String) (s : ℚ)
    (h : find_best_match sims = (some m, s)) : SIMILARITY_THRESHOLD ≤ s := by
  unfold find_best_match at h
  by_cases hth : SIMILARITY_THRESHOLD ≤ sims.getD (argmaxIdx sims) 0
  · rw [if_pos hth] at h
    obtain ⟨-, h2⟩ := Prod.mk.injEq .. ▸ h
    exact h2 ▸ hth
  · rw [if_neg hth] at h
    simp at h

theorem response_map_snd_mem (intent : String) :
    (response_map intent).2 ∈ ["generic-greeting", "generic-help",
      "generic-farewell", "generic-gratitude", "generic-ack",
      "generic-confusion", "generic-unknown"] := by
  unfold response_map
  repeat' split
  all_goals simp

theorem genericResult_shape (intent : String) (c : Counters) :
    (genericResult intent c).1.confidence = none ∧
    (genericResult intent c).1.source = (response_map intent).2 :=
  ⟨rfl, rfl⟩

/-- C1: for every query whose lowercased, trimmed form contains a registered
facet phrase as a substring, `respond` returns that (first-matching) facet's
registered answer with `source = "predefined"` and the fixed constant
confidence 0.85, independently of the similarity scores, the OpenAI outcome
and the rotation counters (which it leaves unchanged) — the embedding stage
is never consulted. -/
theorem respond_facet_substring (q : String)
    (h : ∃ p ∈ FACET_MAP, pyIn p.1 (pylower (pystrip q)) = true) :
    ∃ p ∈ FACET_MAP, pyIn p.1 (pylower (pystrip q)) = true ∧
      ∀ (sims : List ℚ) (openai_enabled : Bool) (llm : Option String)
        (c : Counters),
        respond q sims openai_enabled llm c =
          ({ response := p.2, source := "predefined",
             confidence := some (85/100) }, c) := by
  obtain ⟨p, hp, hin⟩ := h
  have hq : ¬ pystrip q = "" := by
    intro he
    rw [he] at hin
    have hnil : p.1.data <:+: ("" : String).data := of_decide_eq_true hin
    have hdata : p.1.data = [] := List.eq_nil_of_infix_nil hnil
    have : p.1 = "" := by
      cases hstr : p.1 with
      | mk l =>
        rw [hstr] at hdata
        simp at hdata
        subst hdata
        rfl
    exact FACET_MAP_keys_ne_empty p hp this
  have hsome : (FACET_MAP.find? (fun r => pyIn r.1 (pylower (pystrip q)))).isSome :=
    List.find?_isSome.mpr ⟨p, hp, hin⟩
  obtain ⟨p0, hfind⟩ := Option.isSome_iff_exists.mp hsome
  have hp0 : pyIn p0.1 (pylower (pystrip q)) = true := by
    have hps := List.find?_some hfind
    simpa using hps
  refine ⟨p0, List.mem_of_find?_eq_some hfind, hp0, ?_⟩
  intro sims openai_enabled llm c
  have hffm : find_facet_match (pystrip q) = some p0.2 := by
    simp only [find_facet_match, hfind]
  simp [respond, hq, hffm]

/-- C1 witness at a concrete query containing the facet phrase
"process claims". -/
theorem respond_facet_substring_witness :
    ∃ p ∈ FACET_MAP, pyIn p.1 (pylower (pystrip " Do you PROCESS claims? ")) = true ∧
      ∀ (sims : List ℚ) (openai_enabled : Bool) (llm : Option String)
        (c : Counters),
        respond " Do you PROCESS claims? " sims openai_enabled llm c =
          ({ response := p.2, source := "predefined",
             confidence := some (85/100) }, c) :=
  respond_facet_substring " Do you PROCESS claims? " (by decide)

/-- C2: the facet lookup first scans the facet phrases in Knowledge Base
load order and returns the answer of the first phrase occurring as a
substring of the lowercased query; only with no substring hit does the
word-overlap pass run, where a facet qualifies only with overlap at least 2,
no qualifier yields no result, and otherwise the first facet attaining the
(strictly) largest overlap wins. -/
theorem find_facet_match_spec (q : String) :
    (∀ k, k < FACET_MAP.length →
      pyIn (FACET_MAP.getD k ("", "")).1 (pylower q) = true →
      (∀ j, j < k → pyIn (FACET_MAP.getD j ("", "")).1 (pylower q) = false) →
      find_facet_match q = some (FACET_MAP.getD k ("", "")).2) ∧
    ((∀ p ∈ FACET_MAP, pyIn p.1 (pylower q) = false) →
      (∀ p ∈ FACET_MAP, facetOverlap (pysplit (pylower q)) p < 2) →
      find_facet_match q = none) ∧
    ((∀ p ∈ FACET_MAP, pyIn p.1 (pylower q) = false) →
      ∀ k, k < FACET_MAP.length →
        2 ≤ facetOverlap (pysplit (pylower q)) (FACET_MAP.getD k ("", "")) →
        (∀ j, j < k →
          facetOverlap (pysplit (pylower q)) (FACET_MAP.getD j ("", "")) <
            facetOverlap (pysplit (pylower q)) (FACET_MAP.getD k ("", ""))) →
        (∀ p ∈ FACET_MAP, facetOverlap (pysplit (pylower q)) p ≤
          facetOverlap (pysplit (pylower q)) (FACET_MAP.getD k ("", ""))) →
        find_facet_match q = some (FACET_MAP.getD k ("", "")).2) := by
  refine ⟨?_, ?_, ?_⟩
  · intro k hk hp hb
    have hfind := find_eq_some_of_first
      (fun p => pyIn p.1 (pylower q)) ("", "") FACET_MAP k hk hp hb
    simp only [find_facet_match, hfind]
  · intro hs hov
    have hnone : FACET_MAP.find? (fun p => pyIn p.1 (pylower q)) = none :=
      List.find?_eq_none.mpr (fun x hx => by simp [hs x hx])
    simp only [find_facet_match, hnone]
    rw [overlapScan_stable (pysplit (pylower q)) FACET_MAP none 0
      (fun x hx => by have := hov x hx; omega)]
  · intro hs k hk h2 hfirst hmax
    have hnone : FACET_MAP.find? (fun p => pyIn p.1 (pylower q)) = none :=
      List.find?_eq_none.mpr (fun x hx => by simp [hs x hx])
    simp only [find_facet_match, hnone]
    rw [overlapScan_first_max (pysplit (pylower q)) ("", "") FACET_MAP k none 0
      hk h2 (by omega) hfirst hmax]

/-- C2 witness: the substring pass at "how do you handle claims?" (first
substring hit is facet index 15, "handle claims"); the overlap pass at
"processing claims with accuracy" (no substring hit, first maximal overlap
at facet index 16, "claims accuracy") and at "hello world" (no qualifier). -/
theorem find_facet_match_spec_witness :
    find_facet_match "how do you handle claims?" =
      some (FACET_MAP.getD 15 ("", "")).2 ∧
    find_facet_match "hello world" = none ∧
    find_facet_match "processing claims with accuracy" =
      some (FACET_MAP.getD 16 ("", "")).2 :=
  ⟨(find_facet_match_spec "how do you handle claims?").1 15 (by decide)
      (by decide) (by decide),
   (find_facet_match_spec "hello world").2.1 (by decide) (by decide),
   (find_facet_match_spec "processing claims with accuracy").2.2 (by decide)
      16 (by decide) (by decide) (by decide) (by decide)⟩

/-- C3: the embedding similarity search returns the stored question at the
stable argmax index (ties broken towards the first index, earlier entries
being strictly below the maximum) exactly when the maximum score reaches
the threshold 0.55, and in either case reports the raw maximum score. -/
theorem find_best_match_spec (sims : List ℚ)
    (h : sims.length = QUESTIONS.length) :
    argmaxIdx sims < sims.length ∧
    (find_best_match sims).2 = sims.getD (argmaxIdx sims) 0 ∧
    (∀ j, j < sims.length → sims.getD j 0 ≤ (find_best_match sims).2) ∧
    (∀ j, j < argmaxIdx sims → sims.getD j 0 < (find_best_match sims).2) ∧
    (find_best_match sims).1 =
      (if SIMILARITY_THRESHOLD ≤ (find_best_match sims).2 then
        some (QUESTIONS.getD (argmaxIdx sims) "") else none) := by
  have hne : ¬ sims = [] := by
    intro he
    rw [he] at h
    simp [QUESTIONS, PREDEFINED_QA] at h
  have hsnd : (find_best_match sims).2 = sims.getD (argmaxIdx sims) 0 := by
    unfold find_best_match
    by_cases hth : SIMILARITY_THRESHOLD ≤ sims.getD (argmaxIdx sims) 0
    · rw [if_pos hth]
    · rw [if_neg hth]
  refine ⟨argmaxIdx_lt_length sims hne, hsnd, ?_, ?_, ?_⟩
  · intro j hj
    rw [hsnd]
    exact argmaxIdx_is_max sims hne j hj
  · intro j hj
    rw [hsnd]
    exact argmaxIdx_first sims hne j hj
  · rw [hsnd]
    unfold find_best_match
    by_cases hth : SIMILARITY_THRESHOLD ≤ sims.getD (argmaxIdx sims) 0
    · rw [if_pos hth, if_pos hth]
    · rw [if_neg hth, if_neg hth]

/-- C3 witness at a concrete score vector of length 38 whose maximum 3/5
(above threshold) is attained first at index 1. -/
theorem find_best_match_spec_witness :
    argmaxIdx ((0 : ℚ) :: (3/5 : ℚ) :: (3/5 : ℚ) :: List.replicate 35 (0 : ℚ)) <
      ((0 : ℚ) :: (3/5 : ℚ) :: (3/5 : ℚ) :: List.replicate 35 (0 : ℚ)).length ∧
    (find_best_match ((0 : ℚ) :: (3/5 : ℚ) :: (3/5 : ℚ) :: List.replicate 35 (0 : ℚ))).2 =
      ((0 : ℚ) :: (3/5 : ℚ) :: (3/5 : ℚ) :: List.replicate 35 (0 : ℚ)).getD
        (argmaxIdx ((0 : ℚ) :: (3/5 : ℚ) :: (3/5 : ℚ) :: List.replicate 35 (0 : ℚ))) 0 ∧
    (∀ j, j < ((0 : ℚ) :: (3/5 : ℚ) :: (3/5 : ℚ) :: List.replicate 35 (0 : ℚ)).length →
      ((0 : ℚ) :: (3/5 : ℚ) :: (3/5 : ℚ) :: List.replicate 35 (0 : ℚ)).getD j 0 ≤
        (find_best_match ((0 : ℚ) :: (3/5 : ℚ) :: (3/5 : ℚ) :: List.replicate 35 (0 : ℚ))).2) ∧
    (∀ j, j < argmaxIdx ((0 : ℚ) :: (3/5 : ℚ) :: (3/5 : ℚ) :: List.replicate 35 (0 : ℚ)) →
      ((0 : ℚ) :: (3/5 : ℚ) :: (3/5 : ℚ) :: List.replicate 35 (0 : ℚ)).getD j 0 <
        (find_best_match ((0 : ℚ) :: (3/5 : ℚ) :: (3/5 : ℚ) :: List.replicate 35 (0 : ℚ))).2) ∧
    (find_best_match ((0 : ℚ) :: (3/5 : ℚ) :: (3/5 : ℚ) :: List.replicate 35 (0 : ℚ))).1 =
      (if SIMILARITY_THRESHOLD ≤
          (find_best_match ((0 : ℚ) :: (3/5 : ℚ) :: (3/5 : ℚ) :: List.replicate 35 (0 : ℚ))).2 then
        some (QUESTIONS.getD
          (argmaxIdx ((0 : ℚ) :: (3/5 : ℚ) :: (3/5 : ℚ) :: List.replicate 35 (0 : ℚ))) "")
        else none) :=
  find_best_match_spec ((0 : ℚ) :: (3/5 : ℚ) :: (3/5 : ℚ) :: List.replicate 35 (0 : ℚ))
    (by rfl)

/-- C4: on empty or whitespace-only input, `respond` returns the fixed
error record with `confidence = None`, leaves the rotation counters
unchanged, and its result does not depend on the similarity scores, the
OpenAI configuration or the OpenAI outcome. -/
theorem respond_empty_input (q : String) (h : pystrip q = "")
    (sims : List ℚ) (openai_enabled : Bool) (llm : Option String)
    (c : Counters) :
    respond q sims openai_enabled llm c =
      ({ response := "Please enter a valid question.", source := "error",
         confidence := none }, c) := by
  simp [respond, h]

/-- C4 witness at the whitespace-only input "   ". -/
theorem respond_empty_input_witness :
    respond "   " [] true (some "ignored") freshCounters =
      ({ response := "Please enter a valid question.", source := "error",
         confidence := none }, freshCounters) :=
  respond_empty_input "   " (by decide) [] true (some "ignored") freshCounters

/-- C5: the intent classifier always returns one of the seven labels, and
any query containing a help phrase as a substring of its lowercased,
trimmed form classifies as help (priority over every later rule, greeting
included). -/
theorem detect_intent_total_help_priority (q : String) :
    detect_intent q ∈ ["help", "greeting", "farewell", "gratitude",
      "acknowledgment", "confusion", "unknown"] ∧
    (∀ k ∈ help_keywords, pyIn k (queryNorm q) = true →
      detect_intent q = "help") := by
  constructor
  · simp only [detect_intent]
    repeat' split
    all_goals simp
  · intro k hk hin
    simp only [detect_intent]
    rw [if_pos (List.any_eq_true.mpr ⟨k, hk, hin⟩)]

/-- C5 witness: a query containing both a help phrase and a greeting word
classifies as help, and a concrete total-function instance. -/
theorem detect_intent_total_help_priority_witness :
    detect_intent "hi, what can you do" = "help" ∧
    detect_intent "xyzzy" ∈ ["help", "greeting", "farewell", "gratitude",
      "acknowledgment", "confusion", "unknown"] :=
  ⟨(detect_intent_total_help_priority "hi, what can you do").2
      "what can you do" (by decide) (by decide),
   (detect_intent_total_help_priority "xyzzy").1⟩

/-- C6: for every registered intent, starting from a fresh agent instance,
the Nth consecutive generic-response call returns the template at index
(N-1) mod K of that intent's K-entry pool, and every call increments that
intent's cursor by exactly one, unconditionally. -/
theorem generic_response_rotation (intent : String)
    (hk : counterKeys.contains intent = true) (N : Nat) (_hN : 1 ≤ N) :
    (get_generic_response intent (genCalls intent (N - 1) freshCounters)).1.1 =
      (response_map intent).1.getD ((N - 1) % (response_map intent).1.length) "" ∧
    ∀ c : Counters, getCount ((get_generic_response intent c).2) intent =
      getCount c intent + 1 := by
  have hmem : intent ∈ counterKeys := by simpa using hk
  constructor
  · have hcount : getCount (genCalls intent (N - 1) freshCounters) intent = N - 1 := by
      rw [genCalls_getCount intent hk, getCount_fresh]
      omega
    simp [get_generic_response, counterKey, hk, hmem, hcount]
  · intro c
    rw [get_generic_response_counters intent hk, getCount_incCount_self intent hk]

/-- C6 witness: the 10th greeting call on a fresh instance returns
greeting template index 9 mod 8 = 1, and the greeting cursor always
advances by one. -/
theorem generic_response_rotation_witness :
    (get_generic_response "greeting" (genCalls "greeting" (10 - 1) freshCounters)).1.1 =
      (response_map "greeting").1.getD ((10 - 1) % (response_map "greeting").1.length) "" ∧
    ∀ c : Counters, getCount ((get_generic_response "greeting" c).2) "greeting" =
      getCount c "greeting" + 1 :=
  generic_response_rotation "greeting" (by decide) 10 (by decide)

/-- C7 counterexample: for the unregistered intent label "chitchat" the
generic-response operation reports the source label "generic-unknown",
not the requested intent's derived label "generic-chitchat". -/
theorem generic_unregistered_label_cex :
    (get_generic_response "chitchat" freshCounters).1.2 = "generic-unknown" ∧
    ¬ (get_generic_response "chitchat" freshCounters).1.2 = "generic-chitchat" := by
  constructor
  · decide
  · decide

/-- C7 amended: a generic-response call with an unregistered intent label
draws its template from the unknown bank's pool, reports the source label
"generic-unknown" (not one derived from the requested intent), and
increments the "unknown" cursor. -/
theorem generic_unregistered_uses_unknown_bank (intent : String)
    (h : counterKeys.contains intent = false) (c : Counters) :
    get_generic_response intent c =
      ((UNKNOWN_RESPONSES.getD (c.unknown % UNKNOWN_RESPONSES.length) "",
        "generic-unknown"), incCount c "unknown") := by
  have hmem : ¬ intent ∈ counterKeys := by
    intro hm
    simp [hm] at h
  have hmem7 := hmem
  simp only [counterKeys, List.mem_cons, List.mem_singleton, not_or] at hmem7
  obtain ⟨hg, hh, hf, hgr, hu, ha, hc, -⟩ := hmem7
  have hck : counterKey intent = "unknown" := by
    unfold counterKey
    rw [if_neg]
    simpa using hmem
  have hrm : response_map intent = (UNKNOWN_RESPONSES, "generic-unknown") := by
    unfold response_map
    rw [if_neg hg, if_neg hh, if_neg hf, if_neg hgr, if_neg ha, if_neg hc]
  simp only [get_generic_response, hck, hrm]
  simp [getCount]

/-- C7 amended witness at the unregistered intent "chitchat". -/
theorem generic_unregistered_uses_unknown_bank_witness :
    get_generic_response "chitchat" freshCounters =
      ((UNKNOWN_RESPONSES.getD (freshCounters.unknown % UNKNOWN_RESPONSES.length) "",
        "generic-unknown"), incCount freshCounters "unknown") :=
  generic_unregistered_uses_unknown_bank "chitchat" (by decide) freshCounters

/-- C8 counterexample: the word "confused" is in the code's confusion word
list, but the token-set pass only consults the first two entries
("what", "huh"), so the bare query "confused" classifies as "unknown",
not "confusion". -/
theorem detect_intent_confused_cex :
    detect_intent "confused" = "unknown" ∧
    ¬ detect_intent "confused" = "confusion" := by
  constructor
  · decide
  · decide

/-- C8 amended: when none of the help, greeting, farewell, gratitude or
acknowledgment rules fires, a query whose token set meets the first two
confusion words ("what", "huh" — not "confused", which the slice
`confusion_words[:2]` drops), or that contains "don't understand" or
"dont understand" as a substring, classifies as "confusion". -/
theorem detect_intent_confusion_amended (q : String)
    (h1 : help_keywords.any (fun k => pyIn k (queryNorm q)) = false)
    (h2 : greeting_words.any (fun w => (queryWords q).contains w) = false)
    (h3 : time_greeting_words.any (fun w => pyIn w (queryNorm q)) = false)
    (h4 : farewell_words.any (fun w => (queryWords q).contains w) = false)
    (h5 : (pyIn "see you" (queryNorm q) || (queryWords q).contains "exit" ||
      (queryWords q).contains "quit") = false)
    (h6 : gratitude_words.any (fun w => (queryWords q).contains w) = false)
    (h7 : ack_words.any (fun w => (queryWords q).contains w) = false)
    (h8 : (confusion_words.take 2).any (fun w => (queryWords q).contains w) = true ∨
      pyIn "don't understand" (queryNorm q) = true ∨
      pyIn "dont understand" (queryNorm q) = true) :
    detect_intent q = "confusion" := by
  simp only [detect_intent]
  rw [if_neg (by rw [h1]; simp), if_neg (by rw [h2]; simp),
    if_neg (by rw [h3]; simp), if_neg (by rw [h4]; simp),
    if_neg (by rw [h5]; simp), if_neg (by rw [h6]; simp),
    if_neg (by rw [h7]; simp)]
  rcases h8 with h8 | h8 | h8
  · rw [if_pos h8]
  · by_cases htake : ((confusion_words.take 2).any
        (fun w => (queryWords q).contains w)) = true
    · rw [if_pos htake]
    · rw [if_neg htake, if_pos (by rw [h8]; simp)]
  · by_cases htake : ((confusion_words.take 2).any
        (fun w => (queryWords q).contains w)) = true
    · rw [if_pos htake]
    · rw [if_neg htake, if_pos (by rw [h8]; simp)]

/-- C8 amended witness at the query "huh" (token in the first two
confusion words) and at "i dont understand" (substring branch). -/
theorem detect_intent_confusion_amended_witness :
    detect_intent "huh" = "confusion" ∧
    detect_intent "i dont understand" = "confusion" :=
  ⟨detect_intent_confusion_amended "huh" (by decide) (by decide) (by decide)
      (by decide) (by decide) (by decide) (by decide) (Or.inl (by decide)),
   detect_intent_confusion_amended "i dont understand" (by decide) (by decide)
      (by decide) (by decide) (by decide) (by decide) (by decide)
      (Or.inr (Or.inr (by decide)))⟩

/-- C9: when a query reaches the external-LLM stage (nonempty, no facet
match, embedding below threshold, intent "unknown", OpenAI enabled) and the
LLM call fails — any exception or missing content, both folded into `none`,
or empty content — `respond` falls through to the generic-response path and
returns the unknown pool's template with source "generic-unknown" and
confidence None; the failure is never surfaced as source "error". -/
theorem respond_llm_failure (q : String) (sims : List ℚ) (llm : Option String)
    (c : Counters)
    (hq : ¬ pystrip q = "")
    (hf : find_facet_match (pystrip q) = none)
    (he : (find_best_match sims).1 = none)
    (hi : detect_intent (pystrip q) = "unknown")
    (hl : llm = none ∨ llm = some "") :
    respond q sims true llm c =
      ({ response := UNKNOWN_RESPONSES.getD (c.unknown % UNKNOWN_RESPONSES.length) "",
         source := "generic-unknown", confidence := none },
       incCount c "unknown") := by
  have hgen : genericResult "unknown" c =
      ({ response := UNKNOWN_RESPONSES.getD (c.unknown % UNKNOWN_RESPONSES.length) "",
         source := "generic-unknown", confidence := none },
       incCount c "unknown") := by
    simp only [genericResult, get_generic_response]
    simp [counterKey, counterKeys, response_map, getCount, incCount]
  cases hfbm : find_best_match sims with
  | mk mq s =>
    rw [hfbm] at he
    simp only at he
    subst he
    rcases hl with rfl | rfl
    · simp only [respond, if_neg hq, hf, hfbm, hi]
      simp [hgen]
    · simp only [respond, if_neg hq, hf, hfbm, hi]
      simp [hgen]

/-- C9 witness: the query "zzz", all-zero similarity scores, a failed LLM
call, on a fresh instance. -/
theorem respond_llm_failure_witness :
    respond "zzz" (List.replicate 38 (0 : ℚ)) true none freshCounters =
      ({ response := UNKNOWN_RESPONSES.getD
           (freshCounters.unknown % UNKNOWN_RESPONSES.length) "",
         source := "generic-unknown", confidence := none },
       incCount freshCounters "unknown") :=
  respond_llm_failure "zzz" (List.replicate 38 (0 : ℚ)) none freshCounters
    (by decide) (by decide) (by decide) (by decide) (Or.inl rfl)

theorem genericResult_invariant (intent : String) (c : Counters) :
    ((genericResult intent c).1.confidence.isSome = true ↔
      (genericResult intent c).1.source = "predefined") ∧
    (∀ x : ℚ, (genericResult intent c).1.confidence = some x →
      x = 85/100 ∨ SIMILARITY_THRESHOLD ≤ x) := by
  have hsrc : (genericResult intent c).1.source = (response_map intent).2 := rfl
  have hconf : (genericResult intent c).1.confidence = none := rfl
  constructor
  · rw [hconf, hsrc]
    constructor
    · intro habs
      simp at habs
    · intro hcon
      have hm := response_map_snd_mem intent
      rw [hcon] at hm
      simp at hm
  · intro x hx
    rw [hconf] at hx
    simp at hx

/-- C10: in every record `respond` returns, the confidence field is a
number exactly when the source is "predefined", and any such number is
either the facet constant 0.85 or an embedding score at least the
threshold 0.55; every other source (error, llm, generic) carries
confidence None. -/
theorem respond_confidence_source_invariant (q : String) (sims : List ℚ)
    (openai_enabled : Bool) (llm : Option String) (c : Counters) :
    ((respond q sims openai_enabled llm c).1.confidence.isSome = true ↔
      (respond q sims openai_enabled llm c).1.source = "predefined") ∧
    (∀ x : ℚ, (respond q sims openai_enabled llm c).1.confidence = some x →
      x = 85/100 ∨ SIMILARITY_THRESHOLD ≤ x) := by
  by_cases hq : pystrip q = ""
  · simp [respond, hq]
  cases hfm : find_facet_match (pystrip q) with
  | some a =>
    simp only [respond, if_neg hq, hfm]
    constructor
    · simp
    · intro x hx
      simp only [Option.some.injEq] at hx
      left
      exact hx.symm
  | none =>
    cases hbm : find_best_match sims with
    | mk mq s =>
      cases mq with
      | some m =>
        have hth : SIMILARITY_THRESHOLD ≤ s := find_best_match_pair_some sims m s hbm
        simp only [respond, if_neg hq, hfm, hbm]
        constructor
        · simp
        · intro x hx
          simp only [Option.some.injEq] at hx
          right
          rw [← hx]
          exact hth
      | none =>
        simp only [respond, if_neg hq, hfm, hbm]
        by_cases hcond : detect_intent (pystrip q) = "unknown" ∧ openai_enabled = true
        · rw [if_pos hcond]
          cases llm with
          | none => exact genericResult_invariant _ c
          | some s =>
            by_cases hs : s = ""
            · simp only [if_pos hs]
              exact genericResult_invariant _ c
            · simp only [if_neg hs]
              constructor
              · simp
              · intro x hx
                simp at hx
        · rw [if_neg hcond]
          exact genericResult_invariant _ c
